import Mathlib

/-!
Shallow embedding of the motor calibration subsystem
(src/src/firmware/calibration/) of the gelinke firmware.

Rust `f32` values are embedded as `ℚ`; machine arithmetic on these
fields is exact in the source paths the claims touch (comparisons,
sums, divisions), so the rational embedding preserves control flow.
The `u8` phase bitmask is embedded as `ℕ` with bitwise `land`.
Rust `Result` is embedded as `Except`.
-/

namespace Calib

/-- Measurement sample for parameter estimation (types.rs `MeasurementSample`). -/
structure MeasurementSample where
  timestamp : ℚ
  position : ℚ
  velocity : ℚ
  acceleration : ℚ
  current_iq : ℚ
  temperature : ℚ
deriving DecidableEq, Repr

/-- Error codes (types.rs `ErrorCode`). -/
inductive ErrorCode where
  | Success
  | PositionLimit
  | VelocityLimit
  | CurrentLimit
  | TemperatureLimit
  | Timeout
  | InvalidState
  | ConvergenceFailed
  | LowConfidence
  | UserAbort
  | HardwareError
deriving DecidableEq, Repr

/-- Calibration state machine states (types.rs `CalibrationState`). -/
inductive CalibrationState where
  | Idle
  | Initializing
  | InertiaTest
  | FrictionTest
  | TorqueConstantTest
  | DampingTest
  | Validation
  | Finalizing
  | Complete
  | Failed (code : ErrorCode)
deriving DecidableEq, Repr

/-- Calibration configuration (config.rs `CalibrationConfig`). -/
structure CalibrationConfig where
  phases : ℕ
  max_current : ℚ
  max_velocity : ℚ
  max_position_range : ℚ
  phase_timeout : ℚ
  return_home : Bool
  home_position : ℚ
deriving DecidableEq, Repr

/-- config.rs `CalibrationConfig::validate`. -/
def CalibrationConfig.validate (c : CalibrationConfig) : Except String Unit :=
  if c.max_current ≤ 0 ∨ c.max_current > 15 then
    .error "Invalid max_current"
  else if c.max_velocity ≤ 0 ∨ c.max_velocity > 10 then
    .error "Invalid max_velocity"
  else if c.max_position_range ≤ 0 then
    .error "Invalid max_position_range"
  else if c.phase_timeout ≤ 0 then
    .error "Invalid phase_timeout"
  else
    .ok ()

/-- config.rs `CalibrationConfig::phase_enabled`: `(self.phases & (1 << phase)) != 0`. -/
def CalibrationConfig.phase_enabled (c : CalibrationConfig) (phase : ℕ) : Bool :=
  (c.phases.land (1 <<< phase)) ≠ 0

/-- config.rs `PHASE_INERTIA`. -/
def PHASE_INERTIA : ℕ := 0
/-- config.rs `PHASE_FRICTION`. -/
def PHASE_FRICTION : ℕ := 1
/-- config.rs `PHASE_TORQUE_CONSTANT`. -/
def PHASE_TORQUE_CONSTANT : ℕ := 2

/-- Rust `f32::abs`, kept kernel-computable on ℚ. -/
def qabs (x : ℚ) : ℚ := if x < 0 then -x else x

theorem qabs_eq_abs (x : ℚ) : qabs x = |x| := by
  unfold qabs
  rcases lt_or_le x 0 with h | h
  · rw [if_pos h, abs_of_neg h]
  · rw [if_neg (not_lt.mpr h), abs_of_nonneg h]

instance {ε α : Type} [DecidableEq ε] [DecidableEq α] : DecidableEq (Except ε α) :=
  fun a b =>
    match a, b with
    | .ok x, .ok y =>
        if h : x = y then .isTrue (by rw [h]) else .isFalse (by simp [h])
    | .error x, .error y =>
        if h : x = y then .isTrue (by rw [h]) else .isFalse (by simp [h])
    | .ok _, .error _ => .isFalse (by simp)
    | .error _, .ok _ => .isFalse (by simp)

/-- Safety monitor (safety.rs `SafetyMonitor`). -/
structure SafetyMonitor where
  config : CalibrationConfig
  start_time : ℚ
  phase_start_time : ℚ
  home_position : ℚ
deriving DecidableEq, Repr

/-- safety.rs `SafetyMonitor::new`. -/
def SafetyMonitor.new (config : CalibrationConfig) (current_position current_time : ℚ) :
    SafetyMonitor :=
  { config := config
    start_time := current_time
    phase_start_time := current_time
    home_position := current_position }

/-- safety.rs `SafetyMonitor::reset_phase_timer`. -/
def SafetyMonitor.reset_phase_timer (m : SafetyMonitor) (current_time : ℚ) : SafetyMonitor :=
  { m with phase_start_time := current_time }

/-- safety.rs `SafetyMonitor::check_safety`: five hard limits, in order,
short-circuiting on the first violation. -/
def SafetyMonitor.check_safety (m : SafetyMonitor) (s : MeasurementSample) :
    Except ErrorCode Unit :=
  if qabs (s.position - m.home_position) > m.config.max_position_range then
    .error .PositionLimit
  else if qabs s.velocity > m.config.max_velocity * (11/10) then
    .error .VelocityLimit
  else if qabs s.current_iq > m.config.max_current * (11/10) then
    .error .CurrentLimit
  else if s.temperature > 80 then
    .error .TemperatureLimit
  else if s.timestamp - m.phase_start_time > m.config.phase_timeout then
    .error .Timeout
  else
    .ok ()

/-- safety.rs `SafetyMonitor::elapsed_time`. -/
def SafetyMonitor.elapsed_time (m : SafetyMonitor) (current_time : ℚ) : ℚ :=
  current_time - m.start_time

/-- The zero sample used to pre-fill buffer storage (types.rs
`MeasurementBuffer::new` array initializer). -/
def zeroSample : MeasurementSample :=
  { timestamp := 0, position := 0, velocity := 0, acceleration := 0
    current_iq := 0, temperature := 0 }

/-- Fixed-size measurement buffer (types.rs `MeasurementBuffer<N>`):
an `N`-slot storage array plus a logical count. The Rust array
`[MeasurementSample; N]` is embedded as a list whose length stays `N`. -/
structure MeasurementBuffer (N : ℕ) where
  samples : List MeasurementSample
  count : ℕ
deriving DecidableEq, Repr

/-- types.rs `MeasurementBuffer::new`: zero-filled storage, count 0. -/
def MeasurementBuffer.new (N : ℕ) : MeasurementBuffer N :=
  { samples := List.replicate N zeroSample, count := 0 }

/-- types.rs `MeasurementBuffer::push`: writes slot `count` and increments
the count when not full, otherwise fails leaving the buffer unchanged.
Returns the `Result` together with the updated buffer. -/
def MeasurementBuffer.push {N : ℕ} (b : MeasurementBuffer N) (s : MeasurementSample) :
    Except Unit Unit × MeasurementBuffer N :=
  if b.count < N then
    (.ok (), { b with samples := b.samples.set b.count s, count := b.count + 1 })
  else
    (.error (), b)

/-- types.rs `MeasurementBuffer::samples`: the slice `&samples[..count]`. -/
def MeasurementBuffer.samplesView {N : ℕ} (b : MeasurementBuffer N) :
    List MeasurementSample :=
  b.samples.take b.count

/-- types.rs `MeasurementBuffer::clear`. -/
def MeasurementBuffer.clear {N : ℕ} (b : MeasurementBuffer N) : MeasurementBuffer N :=
  { b with count := 0 }

/-- types.rs `MeasurementBuffer::len`. -/
def MeasurementBuffer.len {N : ℕ} (b : MeasurementBuffer N) : ℕ := b.count

/-- types.rs `InertiaResult`. -/
structure InertiaResult where
  J : ℚ
  variance : ℚ
  confidence : ℚ
deriving DecidableEq, Repr

/-- types.rs `FrictionResult`. -/
structure FrictionResult where
  tau_coulomb : ℚ
  tau_stribeck : ℚ
  v_stribeck : ℚ
  b_viscous : ℚ
  r_squared : ℚ
  confidence : ℚ
deriving DecidableEq, Repr

/-- types.rs `TestResults`. -/
structure TestResults where
  inertia : Option InertiaResult
  friction : Option FrictionResult
  torque_constant : Option ℚ
  damping : Option ℚ
deriving DecidableEq, Repr

/-- Decides `Real.sqrt variance / mean < c` (for `c > 0`) without leaving ℚ:
`sqrt v < c*m ↔ c*m > 0 ∧ v < (c*m)²` when `m > 0`; for `m < 0` the quotient
is nonpositive, hence below `c`; for `m = 0` the f32 quotient is `inf`/`NaN`
and every threshold comparison is false. Embeds the `cv < c` comparisons of
inertia.rs `InertiaTest::get_result` (`cv = sqrtf(variance) / mean`). -/
def cvLt (variance mean c : ℚ) : Bool :=
  if mean > 0 then decide (variance < (c * mean) ^ 2)
  else decide (mean < 0)

/-- The three-tier confidence mapping of inertia.rs `InertiaTest::get_result`:
`cv<0.05→1.0, cv<0.10→0.9, cv<0.20→0.7, else 0.5`. -/
def cvConfidence (variance mean : ℚ) : ℚ :=
  if cvLt variance mean (5/100) then 1
  else if cvLt variance mean (10/100) then 9/10
  else if cvLt variance mean (20/100) then 7/10
  else 1/2

/-- inertia.rs `NUM_TRIALS`. -/
def NUM_TRIALS : ℕ := 5
/-- inertia.rs `SAMPLES_PER_TRIAL`. -/
def SAMPLES_PER_TRIAL : ℕ := 100

/-- inertia.rs per-trial phase (`TestPhase`). -/
inductive InertiaPhase where
  | Idle
  | Accelerating
  | WaitSettle
deriving DecidableEq, Repr

/-- inertia.rs `InertiaTest`. The Rust array `results: [f32; NUM_TRIALS]`
is embedded as a list whose length stays `NUM_TRIALS`. -/
structure InertiaTest where
  trial : ℕ
  phase : InertiaPhase
  start_time : ℚ
  measurements : MeasurementBuffer SAMPLES_PER_TRIAL
  results : List ℚ
  kt_nominal : ℚ
deriving DecidableEq, Repr

/-- inertia.rs `InertiaTest::new`. -/
def InertiaTest.new (kt_nominal : ℚ) : InertiaTest :=
  { trial := 0
    phase := .Idle
    start_time := 0
    measurements := MeasurementBuffer.new SAMPLES_PER_TRIAL
    results := List.replicate NUM_TRIALS 0
    kt_nominal := kt_nominal }

/-- inertia.rs `InertiaTest::get_command_current`: `(self.trial + 1) as f32`. -/
def InertiaTest.get_command_current (t : InertiaTest) : ℚ :=
  (t.trial : ℚ) + 1

/-- inertia.rs `InertiaTest::estimate_inertia_for_trial`: average the buffered
accelerations with `|α| > 1.0`, return 0 when none qualifies, else
`kt_nominal * i_q / avg_acceleration`. -/
def InertiaTest.estimate_inertia_for_trial (t : InertiaTest) : ℚ :=
  let samples := t.measurements.samplesView
  let sum_accel := (samples.filter (fun s => qabs s.acceleration > 1)).foldl
    (fun acc s => acc + s.acceleration) 0
  let count := (samples.filter (fun s => qabs s.acceleration > 1)).length
  if count = 0 then 0
  else
    let avg_acceleration := sum_accel / (count : ℚ)
    let i_q := t.get_command_current
    let torque := t.kt_nominal * i_q
    torque / avg_acceleration

/-- inertia.rs `InertiaTest::update`: per-trial state machine
`Idle → Accelerating (1 s) → WaitSettle (0.5 s) → store J, advance`.
Returns `(i_q_command, is_complete)` with the updated test. -/
def InertiaTest.update (t : InertiaTest) (sample : MeasurementSample) :
    (ℚ × Bool) × InertiaTest :=
  match t.phase with
  | .Idle =>
      let t' := { t with start_time := sample.timestamp
                         measurements := t.measurements.clear
                         phase := .Accelerating }
      ((t'.get_command_current, false), t')
  | .Accelerating =>
      let t1 := { t with measurements := (t.measurements.push sample).2 }
      let t2 :=
        if sample.timestamp - t1.start_time > 1 then
          { t1 with phase := .WaitSettle, start_time := sample.timestamp }
        else t1
      ((t2.get_command_current, false), t2)
  | .WaitSettle =>
      if sample.timestamp - t.start_time > 1/2 then
        let J := t.estimate_inertia_for_trial
        let t1 := { t with results := t.results.set t.trial J, trial := t.trial + 1 }
        if t1.trial ≥ NUM_TRIALS then
          ((0, true), t1)
        else
          ((0, false), { t1 with phase := .Idle })
      else
        ((0, false), t)

/-- inertia.rs `InertiaTest::get_result`: mean and variance of the five
per-trial estimates, confidence from the coefficient of variation. -/
def InertiaTest.get_result (t : InertiaTest) : InertiaResult :=
  let sum := t.results.foldl (· + ·) 0
  let mean := sum / (NUM_TRIALS : ℚ)
  let var_sum := t.results.foldl (fun acc J => acc + (J - mean) * (J - mean)) 0
  let variance := var_sum / (NUM_TRIALS : ℚ)
  { J := mean, variance := variance, confidence := cvConfidence variance mean }

/-- inertia.rs `InertiaTest::get_progress`. -/
def InertiaTest.get_progress (t : InertiaTest) : ℚ :=
  (t.trial : ℚ) / (NUM_TRIALS : ℚ)

/-- friction.rs `NUM_VELOCITIES`. -/
def NUM_VELOCITIES : ℕ := 8
/-- friction.rs `SAMPLES_PER_VELOCITY`. -/
def SAMPLES_PER_VELOCITY : ℕ := 300

/-- friction.rs per-velocity phase (`TestPhase`). -/
inductive FrictionPhase where
  | Ramping
  | Steady
deriving DecidableEq, Repr

/-- friction.rs `FrictionTest`. The Rust arrays `velocity_setpoints` and
`friction_estimates` (`[f32; NUM_VELOCITIES]`) are embedded as lists whose
length stays `NUM_VELOCITIES`. -/
structure FrictionTest where
  velocity_index : ℕ
  phase : FrictionPhase
  start_time : ℚ
  measurements : MeasurementBuffer SAMPLES_PER_VELOCITY
  velocity_setpoints : List ℚ
  friction_estimates : List ℚ
  kt_nominal : ℚ
deriving DecidableEq, Repr

/-- friction.rs `FrictionTest::new`: note `start_time` is initialized to `0.0`,
not to the time the test is entered. -/
def FrictionTest.new (kt_nominal max_velocity : ℚ) : FrictionTest :=
  { velocity_index := 0
    phase := .Ramping
    start_time := 0
    measurements := MeasurementBuffer.new SAMPLES_PER_VELOCITY
    velocity_setpoints :=
      [max_velocity * (1/10), max_velocity * (2/10),
       max_velocity * (4/10), max_velocity * (8/10),
       -max_velocity * (1/10), -max_velocity * (2/10),
       -max_velocity * (4/10), -max_velocity * (8/10)]
    friction_estimates := List.replicate NUM_VELOCITIES 0
    kt_nominal := kt_nominal }

/-- friction.rs `FrictionTest::estimate_friction_at_velocity`:
`kt_nominal` times the average `i_q` over the steady-window buffer. -/
def FrictionTest.estimate_friction_at_velocity (t : FrictionTest) : ℚ :=
  let samples := t.measurements.samplesView
  let sum_iq := samples.foldl (fun acc s => acc + s.current_iq) 0
  let avg_iq := sum_iq / (samples.length : ℚ)
  t.kt_nominal * avg_iq

/-- friction.rs `FrictionTest::update`: per-velocity state machine
`Ramping (1 s) → Steady (collect, 3 s) → advance index or finish`.
Returns `(velocity_command, is_complete)` with the updated test.
The Rust indexing `velocity_setpoints[velocity_index]` (which would panic
at index 8; `update` is never reached after completion) is embedded
with `getD _ 0`. -/
def FrictionTest.update (t : FrictionTest) (sample : MeasurementSample) :
    (ℚ × Bool) × FrictionTest :=
  let target_vel := t.velocity_setpoints.getD t.velocity_index 0
  match t.phase with
  | .Ramping =>
      let t' :=
        if sample.timestamp - t.start_time > 1 then
          { t with phase := .Steady
                   start_time := sample.timestamp
                   measurements := t.measurements.clear }
        else t
      ((target_vel, false), t')
  | .Steady =>
      let t1 := { t with measurements := (t.measurements.push sample).2 }
      if sample.timestamp - t1.start_time > 3 then
        let tau := t1.estimate_friction_at_velocity
        let t2 := { t1 with friction_estimates := t1.friction_estimates.set t1.velocity_index tau
                            velocity_index := t1.velocity_index + 1 }
        if t2.velocity_index ≥ NUM_VELOCITIES then
          ((0, true), t2)
        else
          ((target_vel, false), { t2 with phase := .Ramping, start_time := sample.timestamp })
      else
        ((target_vel, false), t1)

/-- The value of `f32::MAX` (= `(2 − 2⁻²³)·2¹²⁷`), used as a scan sentinel in
friction.rs `FrictionTest::get_result`. -/
def F32_MAX : ℚ := 2 ^ 128 - 2 ^ 104

/-- friction.rs `FrictionTest::get_result`: scan the eight per-velocity
estimates for the positive-side min/max, negative-side min (of `−τ`) and max
positive velocity, then Coulomb = mean of the two side minima, viscous slope
`(τ_max − τ_c)/v_max`, fixed Stribeck heuristics, placeholder R². -/
def FrictionTest.get_result (t : FrictionTest) : FrictionResult :=
  let scan := (t.velocity_setpoints.zip t.friction_estimates).foldl
    (fun acc vt =>
      let v := vt.1
      let tau := vt.2
      let acc1 := if v > 0 then
          (if tau < acc.1 then tau else acc.1,
           if tau > acc.2.1 then tau else acc.2.1,
           acc.2.2.1,
           if v > acc.2.2.2 then v else acc.2.2.2)
        else acc
      if v < 0 then
        (acc1.1, acc1.2.1, if -tau < acc1.2.2.1 then -tau else acc1.2.2.1, acc1.2.2.2)
      else acc1)
    (F32_MAX, -F32_MAX, F32_MAX, 0)
  let tau_pos_min := scan.1
  let tau_pos_max := scan.2.1
  let tau_neg_min := scan.2.2.1
  let vel_pos_max := scan.2.2.2
  let tau_coulomb := (tau_pos_min + tau_neg_min) / 2
  let v_max := if vel_pos_max > 0 then vel_pos_max else 1
  let b_viscous := (tau_pos_max - tau_coulomb) / v_max
  let tau_stribeck := tau_coulomb * (3/10)
  let v_stribeck : ℚ := 1/10
  let r_squared : ℚ := 85/100
  let confidence : ℚ :=
    if r_squared > 90/100 then 95/100
    else if r_squared > 80/100 then 85/100
    else 70/100
  { tau_coulomb := tau_coulomb
    tau_stribeck := tau_stribeck
    v_stribeck := v_stribeck
    b_viscous := b_viscous
    r_squared := r_squared
    confidence := confidence }

/-- friction.rs `FrictionTest::get_progress`. -/
def FrictionTest.get_progress (t : FrictionTest) : ℚ :=
  (t.velocity_index : ℚ) / (NUM_VELOCITIES : ℚ)

/-- mod.rs `CalibrationManager`. -/
structure CalibrationManager where
  state : CalibrationState
  config : CalibrationConfig
  safety : Option SafetyMonitor
  inertia_test : Option InertiaTest
  friction_test : Option FrictionTest
  results : TestResults
  start_time : ℚ
deriving DecidableEq, Repr

/-- mod.rs `CalibrationManager::new`. -/
def CalibrationManager.new : CalibrationManager :=
  { state := .Idle
    config :=
      { phases := 0, max_current := 0, max_velocity := 0, max_position_range := 0
        phase_timeout := 0, return_home := false, home_position := 0 }
    safety := none
    inertia_test := none
    friction_test := none
    results := { inertia := none, friction := none, torque_constant := none, damping := none }
    start_time := 0 }

/-- mod.rs `CalibrationManager::start`: reject unless `Idle`, validate the
config, capture `home_position`, build the `SafetyMonitor`, record the start
time, enter `Initializing`. Returns the `Result` with the updated manager. -/
def CalibrationManager.start (m : CalibrationManager) (config : CalibrationConfig)
    (current_position current_time : ℚ) :
    Except ErrorCode Unit × CalibrationManager :=
  if m.state ≠ CalibrationState.Idle then
    (.error .InvalidState, m)
  else
    match config.validate with
    | .error _ => (.error .InvalidState, m)
    | .ok _ =>
        let config' := { config with home_position := current_position }
        (.ok (),
         { m with config := config'
                  safety := some (SafetyMonitor.new config' current_position current_time)
                  start_time := current_time
                  state := .Initializing })

/-- mod.rs `CalibrationManager::stop`: any state other than `Idle` becomes
`Failed(UserAbort)`. -/
def CalibrationManager.stop (m : CalibrationManager) : CalibrationManager :=
  if m.state ≠ CalibrationState.Idle then
    { m with state := .Failed .UserAbort }
  else m

/-- The `match self.state` body of mod.rs `CalibrationManager::update`,
reached when the safety gate passes (or no monitor exists). -/
def CalibrationManager.updateDispatch (m : CalibrationManager)
    (sample : MeasurementSample) :
    (ℚ × ℚ × Bool) × CalibrationManager :=
  match m.state with
  | .Initializing =>
      if m.config.phase_enabled PHASE_INERTIA then
        let m' := { m with inertia_test := some (InertiaTest.new (15/100))
                           state := .InertiaTest
                           safety := m.safety.map (·.reset_phase_timer sample.timestamp) }
        ((0, 0, false), m')
      else if m.config.phase_enabled PHASE_FRICTION then
        let m' := { m with friction_test := some (FrictionTest.new (15/100) m.config.max_velocity)
                           state := .FrictionTest
                           safety := m.safety.map (·.reset_phase_timer sample.timestamp) }
        ((0, 0, false), m')
      else
        ((0, 0, true), { m with state := .Complete })
  | .InertiaTest =>
      match m.inertia_test with
      | some t =>
          let r := t.update sample
          let i_q := r.1.1
          let complete := r.1.2
          let t' := r.2
          let m1 := { m with inertia_test := some t' }
          if complete then
            let result := t'.get_result
            let inertia_J := result.J
            let m2 := { m1 with results := { m1.results with inertia := some result } }
            if m2.config.phase_enabled PHASE_FRICTION then
              let kt := inertia_J
              let m3 := { m2 with
                friction_test := some (FrictionTest.new kt m2.config.max_velocity)
                state := .FrictionTest
                safety := m2.safety.map (·.reset_phase_timer sample.timestamp) }
              ((i_q, 0, false), m3)
            else
              ((0, 0, true), { m2 with state := .Complete })
          else
            ((i_q, 0, false), m1)
      | none => ((0, 0, false), m)
  | .FrictionTest =>
      match m.friction_test with
      | some t =>
          let r := t.update sample
          let vel := r.1.1
          let complete := r.1.2
          let t' := r.2
          let m1 := { m with friction_test := some t' }
          if complete then
            let result := t'.get_result
            let m2 := { m1 with results := { m1.results with friction := some result } }
            ((0, 0, true), { m2 with state := .Complete })
          else
            ((0, vel, false), m1)
      | none => ((0, 0, false), m)
  | .Complete => ((0, 0, true), m)
  | .Failed _ => ((0, 0, true), m)
  | _ => ((0, 0, false), m)

/-- mod.rs `CalibrationManager::update`, the per-tick hot path: safety gate
first, then dispatch on state. Returns `(i_q_command, velocity_command,
is_complete)` with the updated manager. -/
def CalibrationManager.update (m : CalibrationManager) (sample : MeasurementSample) :
    (ℚ × ℚ × Bool) × CalibrationManager :=
  match m.safety with
  | some sm =>
      match sm.check_safety sample with
      | .error e => ((0, 0, true), { m with state := .Failed e })
      | .ok _ => m.updateDispatch sample
  | none => m.updateDispatch sample

/-- mod.rs `CalibrationManager::is_complete`. -/
def CalibrationManager.is_complete (m : CalibrationManager) : Bool :=
  match m.state with
  | .Complete => true
  | .Failed _ => true
  | _ => false

/-- True when the manager has no safety monitor or its `check_safety`
accepts the sample — exactly the condition under which mod.rs
`CalibrationManager::update` reaches the `match self.state` dispatch. -/
def CalibrationManager.safetyPasses (m : CalibrationManager)
    (sample : MeasurementSample) : Bool :=
  match m.safety with
  | none => true
  | some sm =>
      match sm.check_safety sample with
      | .ok _ => true
      | .error _ => false

/-- The numeric-range part of config validation, as the spec phrases it:
`max_current ∈ (0,15]`, `max_velocity ∈ (0,10]`, `max_position_range > 0`,
`phase_timeout > 0`. -/
def ConfigValid (c : CalibrationConfig) : Prop :=
  0 < c.max_current ∧ c.max_current ≤ 15 ∧
  0 < c.max_velocity ∧ c.max_velocity ≤ 10 ∧
  0 < c.max_position_range ∧ 0 < c.phase_timeout

instance (c : CalibrationConfig) : Decidable (ConfigValid c) := by
  unfold ConfigValid; infer_instance

/-- Well-formedness of a buffer: the storage array keeps its declared size
(automatic for the Rust `[MeasurementSample; N]`) and the logical count never
exceeds it. -/
def MeasurementBuffer.WF {N : ℕ} (b : MeasurementBuffer N) : Prop :=
  b.samples.length = N ∧ b.count ≤ N

instance {N : ℕ} (b : MeasurementBuffer N) : Decidable b.WF := by
  unfold MeasurementBuffer.WF; infer_instance

/-- An operation performed on a measurement buffer. -/
inductive BufOp where
  | push (s : MeasurementSample)
  | clear
deriving DecidableEq, Repr

/-- Run one buffer operation (discarding `push`'s result code). -/
def applyOp {N : ℕ} (b : MeasurementBuffer N) (op : BufOp) : MeasurementBuffer N :=
  match op with
  | .push s => (b.push s).2
  | .clear => b.clear

/-- Run a sequence of buffer operations. -/
def applyOps {N : ℕ} (b : MeasurementBuffer N) (ops : List BufOp) : MeasurementBuffer N :=
  ops.foldl applyOp b

/-- Modelled from the spec: the intended contents of an `N`-capacity
append-only buffer after a sequence of operations — a `push` appends when
there is room and is rejected once full, a `clear` empties. Used as the
abstract model in the refinement statement for `MeasurementBuffer`. -/
def specContents (N : ℕ) (l : List MeasurementSample) : List BufOp → List MeasurementSample
  | [] => l
  | .push s :: ops => specContents N (if l.length < N then l ++ [s] else l) ops
  | .clear :: ops => specContents N [] ops

/-- A valid standard configuration (inertia and friction enabled). -/
def cfgStd : CalibrationConfig :=
  { phases := 3, max_current := 5, max_velocity := 4, max_position_range := 1
    phase_timeout := 20, return_home := false, home_position := 0 }

/-- A safety monitor built from `cfgStd` at home 0, time 0. -/
def monStd : SafetyMonitor := SafetyMonitor.new cfgStd 0 0

/-- A sample violating no limit of `monStd`. -/
def sampleBenign : MeasurementSample :=
  { timestamp := 0, position := 0, velocity := 0, acceleration := 0
    current_iq := 0, temperature := 20 }

/-- A sample violating both the position bound and the velocity bound of
`monStd`. -/
def samplePosVel : MeasurementSample :=
  { sampleBenign with position := 5, velocity := 100 }

/-- A sample violating only the velocity bound of `monStd`. -/
def sampleVel : MeasurementSample := { sampleBenign with velocity := 100 }

/-- A sample violating only the current bound of `monStd`. -/
def sampleCur : MeasurementSample := { sampleBenign with current_iq := 100 }

/-- A sample violating only the temperature bound. -/
def sampleTmp : MeasurementSample := { sampleBenign with temperature := 100 }

/-- A sample violating only the phase timeout of `monStd`. -/
def sampleTmo : MeasurementSample := { sampleBenign with timestamp := 1000 }

/-- A manager sitting in `Complete` that still holds its safety monitor. -/
def mTermC : CalibrationManager :=
  { CalibrationManager.new with state := .Complete, safety := some monStd }

/-- A manager sitting in `Failed(Timeout)` (no safety monitor attached). -/
def mTermF : CalibrationManager :=
  { CalibrationManager.new with state := .Failed .Timeout }

/-- `cfgStd` with only the torque-constant phase (bit 2) enabled. -/
def cfgTC : CalibrationConfig := { cfgStd with phases := 4 }

/-- A manager in `Initializing` whose config enables only the
torque-constant phase. -/
def mInitTC : CalibrationManager :=
  { CalibrationManager.new with
      state := .Initializing
      config := cfgTC
      safety := some (SafetyMonitor.new cfgTC 0 0) }

/-- A manager in `Initializing` whose config enables only the inertia phase. -/
def mInitI : CalibrationManager :=
  { CalibrationManager.new with
      state := .Initializing
      config := { cfgStd with phases := 1 } }

/-- A sample with constant acceleration 2 rad/s². -/
def accel2Sample : MeasurementSample := { sampleBenign with acceleration := 2 }

/-- An inertia test on trial 0 whose buffer holds two samples at constant
acceleration 2 rad/s². -/
def itTrial0 : InertiaTest :=
  { InertiaTest.new (3/20) with
      measurements := { samples := [accel2Sample, accel2Sample], count := 2 } }

/-- An inertia test on trial 4 in `WaitSettle` with an empty buffer: the next
sample past the settle window completes the whole test. -/
def itDone : InertiaTest :=
  { InertiaTest.new (3/20) with trial := 4, phase := .WaitSettle, start_time := 0 }

/-- A manager running `itDone` as its inertia phase, with friction enabled. -/
def mIT : CalibrationManager :=
  { CalibrationManager.new with
      state := .InertiaTest
      config := cfgStd
      inertia_test := some itDone }

/-- The sample that ends `itDone`'s settle window. -/
def s06 : MeasurementSample := { sampleBenign with timestamp := 6/10 }

/-- A full 2-slot buffer. -/
def bufFull2 : MeasurementBuffer 2 :=
  { samples := [sampleBenign, sampleBenign], count := 2 }

/-- A sample operation sequence exercising push past capacity and clear. -/
def opsEx : List BufOp :=
  [.push accel2Sample, .push sampleBenign, .push sampleTmp, .clear, .push sampleCur]

theorem foldl_add_map (f : MeasurementSample → ℚ) :
    ∀ (l : List MeasurementSample) (a : ℚ),
      l.foldl (fun acc s => acc + f s) a = a + (l.map f).sum := by
  intro l
  induction l with
  | nil => intro a; simp
  | cons x xs ih =>
      intro a
      simp only [List.foldl_cons, List.map_cons, List.sum_cons, ih]
      ring

theorem take_set_succ {α : Type} :
    ∀ (l : List α) (n : ℕ) (a : α), n < l.length →
      (l.set n a).take (n + 1) = l.take n ++ [a] := by
  intro l
  induction l with
  | nil => intro n a h; simp at h
  | cons x xs ih =>
      intro n a h
      cases n with
      | zero => simp
      | succ k =>
          simp only [List.set_cons_succ, List.take_succ_cons, List.cons_append,
            List.cons.injEq, true_and]
          exact ih k a (by simpa using h)

theorem update_eq_dispatch (m : CalibrationManager) (s : MeasurementSample)
    (h : m.safetyPasses s = true) : m.update s = m.updateDispatch s := by
  obtain ⟨st, cfg, sf, it, ft, res, t0⟩ := m
  cases sf with
  | none => rfl
  | some sm =>
      unfold CalibrationManager.safetyPasses at h
      unfold CalibrationManager.update
      dsimp only at h ⊢
      cases hc : sm.check_safety s with
      | ok u => rfl
      | error e => rw [hc] at h; simp at h

theorem samplesView_length {N : ℕ} (b : MeasurementBuffer N) (h : b.WF) :
    b.samplesView.length = b.count := by
  rcases h with ⟨hlen, hcnt⟩
  simp [MeasurementBuffer.samplesView, hlen]
  omega

theorem push_step_ok {N : ℕ} (b : MeasurementBuffer N) (s : MeasurementSample)
    (hwf : b.WF) (hlt : b.count < N) :
    (b.push s).1 = .ok () ∧
    (b.push s).2.count = b.count + 1 ∧
    (b.push s).2.samplesView = b.samplesView ++ [s] ∧
    (b.push s).2.WF := by
  rcases hwf with ⟨hlen, _⟩
  unfold MeasurementBuffer.push
  rw [if_pos hlt]
  refine ⟨rfl, rfl, ?_, ?_, ?_⟩
  · simpa [MeasurementBuffer.samplesView] using
      take_set_succ b.samples b.count s (by omega)
  · show (b.samples.set b.count s).length = N
    simpa using hlen
  · show b.count + 1 ≤ N
    omega

theorem push_step_full {N : ℕ} (b : MeasurementBuffer N) (s : MeasurementSample)
    (hfull : b.count = N) : b.push s = (.error (), b) := by
  unfold MeasurementBuffer.push
  rw [if_neg (by omega)]

theorem clear_step {N : ℕ} (b : MeasurementBuffer N) (hwf : b.WF) :
    b.clear.samplesView = [] ∧ b.clear.WF := by
  rcases hwf with ⟨hlen, _⟩
  exact ⟨by simp [MeasurementBuffer.clear, MeasurementBuffer.samplesView],
    ⟨by simpa [MeasurementBuffer.clear] using hlen,
     by simp [MeasurementBuffer.clear]⟩⟩

theorem applyOps_invariant {N : ℕ} :
    ∀ (ops : List BufOp) (b : MeasurementBuffer N), b.WF →
      (applyOps b ops).WF ∧
      (applyOps b ops).samplesView = specContents N b.samplesView ops := by
  intro ops
  induction ops with
  | nil => intro b hwf; exact ⟨hwf, rfl⟩
  | cons op rest ih =>
      intro b hwf
      cases op with
      | push s =>
          by_cases hlt : b.count < N
          · obtain ⟨-, -, hview, hwf'⟩ := push_step_ok b s hwf hlt
            have hstep := ih (b.push s).2 hwf'
            refine ⟨hstep.1, ?_⟩
            have hlen : b.samplesView.length < N := by
              rw [samplesView_length b hwf]; exact hlt
            simpa [applyOps, applyOp, specContents, hview, if_pos hlen] using hstep.2
          · have hfull : b.count = N := by
              rcases hwf with ⟨-, hcnt⟩; omega
            have hpush := push_step_full b s hfull
            have hstep := ih b hwf
            refine ⟨by simpa [applyOps, applyOp, hpush] using hstep.1, ?_⟩
            have hlen : ¬ b.samplesView.length < N := by
              rw [samplesView_length b hwf, hfull]; omega
            simpa [applyOps, applyOp, hpush, specContents, if_neg hlen] using hstep.2
      | clear =>
          obtain ⟨hview, hwf'⟩ := clear_step b hwf
          have hstep := ih b.clear hwf'
          refine ⟨hstep.1, ?_⟩
          simpa [applyOps, applyOp, specContents, hview] using hstep.2

theorem validate_ok_iff (c : CalibrationConfig) :
    c.validate = .ok () ↔ ConfigValid c := by
  unfold CalibrationConfig.validate ConfigValid
  split_ifs with h1 h2 h3 h4
  · simp only [reduceCtorEq, false_iff]
    rintro ⟨a1, a2, -⟩; rcases h1 with h | h <;> linarith
  · simp only [reduceCtorEq, false_iff]
    rintro ⟨-, -, a1, a2, -⟩; rcases h2 with h | h <;> linarith
  · simp only [reduceCtorEq, false_iff]
    rintro ⟨-, -, -, -, a1, -⟩; linarith
  · simp only [reduceCtorEq, false_iff]
    rintro ⟨-, -, -, -, -, a1⟩; linarith
  · simp only [true_iff]
    push_neg at h1 h2
    exact ⟨h1.1, h1.2, h2.1, h2.2, by linarith [not_le.mp h3], by linarith [not_le.mp h4]⟩

/-- Claim C1: if the manager holds a safety monitor and `check_safety(sample)`
returns an error code `e`, then `update(sample)` sets the state to `Failed(e)`
and returns the zero command triple `(0.0, 0.0, true)`, regardless of the state
before the call; nothing else in the manager changes, so the safety evaluation
happens before any phase dispatch. -/
theorem c1_safety_gate_forces_failed (m : CalibrationManager) (s : MeasurementSample)
    (sm : SafetyMonitor) (e : ErrorCode)
    (h1 : m.safety = some sm) (h2 : sm.check_safety s = .error e) :
    m.update s = ((0, 0, true), { m with state := .Failed e }) := by
  obtain ⟨st, cfg, sf, it, ft, res, t0⟩ := m
  cases h1
  unfold CalibrationManager.update
  dsimp only
  rw [h2]

/-- Witness for C1: a manager resting in `Complete` with the standard monitor,
hit by a sample that violates the position bound. -/
theorem c1_witness :
    mTermC.update samplePosVel =
      ((0, 0, true), { mTermC with state := .Failed .PositionLimit }) :=
  c1_safety_gate_forces_failed mTermC samplePosVel monStd .PositionLimit rfl
    (by norm_num [SafetyMonitor.check_safety, monStd, SafetyMonitor.new, cfgStd,
      samplePosVel, sampleBenign, qabs])

/-- Claim C2: `check_safety` evaluates the five limits in the fixed order
position, velocity, current, temperature, timeout, short-circuiting at the
first violation (so a sample violating both position and velocity reports
`PositionLimit`), and returns `Ok` when no limit is violated. -/
theorem c2_check_safety_order (m : SafetyMonitor) (s : MeasurementSample) :
    (qabs (s.position - m.home_position) > m.config.max_position_range →
      m.check_safety s = .error .PositionLimit) ∧
    (¬(qabs (s.position - m.home_position) > m.config.max_position_range) →
      qabs s.velocity > m.config.max_velocity * (11/10) →
      m.check_safety s = .error .VelocityLimit) ∧
    (¬(qabs (s.position - m.home_position) > m.config.max_position_range) →
      ¬(qabs s.velocity > m.config.max_velocity * (11/10)) →
      qabs s.current_iq > m.config.max_current * (11/10) →
      m.check_safety s = .error .CurrentLimit) ∧
    (¬(qabs (s.position - m.home_position) > m.config.max_position_range) →
      ¬(qabs s.velocity > m.config.max_velocity * (11/10)) →
      ¬(qabs s.current_iq > m.config.max_current * (11/10)) →
      s.temperature > 80 →
      m.check_safety s = .error .TemperatureLimit) ∧
    (¬(qabs (s.position - m.home_position) > m.config.max_position_range) →
      ¬(qabs s.velocity > m.config.max_velocity * (11/10)) →
      ¬(qabs s.current_iq > m.config.max_current * (11/10)) →
      ¬(s.temperature > 80) →
      s.timestamp - m.phase_start_time > m.config.phase_timeout →
      m.check_safety s = .error .Timeout) ∧
    (¬(qabs (s.position - m.home_position) > m.config.max_position_range) →
      ¬(qabs s.velocity > m.config.max_velocity * (11/10)) →
      ¬(qabs s.current_iq > m.config.max_current * (11/10)) →
      ¬(s.temperature > 80) →
      ¬(s.timestamp - m.phase_start_time > m.config.phase_timeout) →
      m.check_safety s = .ok ()) := by
  unfold SafetyMonitor.check_safety
  refine ⟨?_, ?_, ?_, ?_, ?_, ?_⟩
  · intro h1; rw [if_pos h1]
  · intro h1 h2; rw [if_neg h1, if_pos h2]
  · intro h1 h2 h3; rw [if_neg h1, if_neg h2, if_pos h3]
  · intro h1 h2 h3 h4; rw [if_neg h1, if_neg h2, if_neg h3, if_pos h4]
  · intro h1 h2 h3 h4 h5; rw [if_neg h1, if_neg h2, if_neg h3, if_neg h4, if_pos h5]
  · intro h1 h2 h3 h4 h5; rw [if_neg h1, if_neg h2, if_neg h3, if_neg h4, if_neg h5]

/-- Witness for C2: each limit of the standard monitor exercised by a concrete
sample, including the sample violating both position and velocity at once. -/
theorem c2_witness :
    monStd.check_safety samplePosVel = .error .PositionLimit ∧
    monStd.check_safety sampleVel = .error .VelocityLimit ∧
    monStd.check_safety sampleCur = .error .CurrentLimit ∧
    monStd.check_safety sampleTmp = .error .TemperatureLimit ∧
    monStd.check_safety sampleTmo = .error .Timeout ∧
    monStd.check_safety sampleBenign = .ok () :=
  ⟨(c2_check_safety_order monStd samplePosVel).1 (by norm_num [qabs, monStd, SafetyMonitor.new, cfgStd, sampleBenign, samplePosVel, sampleVel, sampleCur, sampleTmp, sampleTmo]),
   (c2_check_safety_order monStd sampleVel).2.1 (by norm_num [qabs, monStd, SafetyMonitor.new, cfgStd, sampleBenign, samplePosVel, sampleVel, sampleCur, sampleTmp, sampleTmo]) (by norm_num [qabs, monStd, SafetyMonitor.new, cfgStd, sampleBenign, samplePosVel, sampleVel, sampleCur, sampleTmp, sampleTmo]),
   (c2_check_safety_order monStd sampleCur).2.2.1 (by norm_num [qabs, monStd, SafetyMonitor.new, cfgStd, sampleBenign, samplePosVel, sampleVel, sampleCur, sampleTmp, sampleTmo]) (by norm_num [qabs, monStd, SafetyMonitor.new, cfgStd, sampleBenign, samplePosVel, sampleVel, sampleCur, sampleTmp, sampleTmo]) (by norm_num [qabs, monStd, SafetyMonitor.new, cfgStd, sampleBenign, samplePosVel, sampleVel, sampleCur, sampleTmp, sampleTmo]),
   (c2_check_safety_order monStd sampleTmp).2.2.2.1 (by norm_num [qabs, monStd, SafetyMonitor.new, cfgStd, sampleBenign, samplePosVel, sampleVel, sampleCur, sampleTmp, sampleTmo]) (by norm_num [qabs, monStd, SafetyMonitor.new, cfgStd, sampleBenign, samplePosVel, sampleVel, sampleCur, sampleTmp, sampleTmo]) (by norm_num [qabs, monStd, SafetyMonitor.new, cfgStd, sampleBenign, samplePosVel, sampleVel, sampleCur, sampleTmp, sampleTmo])
     (by norm_num [qabs, monStd, SafetyMonitor.new, cfgStd, sampleBenign, samplePosVel, sampleVel, sampleCur, sampleTmp, sampleTmo]),
   (c2_check_safety_order monStd sampleTmo).2.2.2.2.1 (by norm_num [qabs, monStd, SafetyMonitor.new, cfgStd, sampleBenign, samplePosVel, sampleVel, sampleCur, sampleTmp, sampleTmo]) (by norm_num [qabs, monStd, SafetyMonitor.new, cfgStd, sampleBenign, samplePosVel, sampleVel, sampleCur, sampleTmp, sampleTmo]) (by norm_num [qabs, monStd, SafetyMonitor.new, cfgStd, sampleBenign, samplePosVel, sampleVel, sampleCur, sampleTmp, sampleTmo])
     (by norm_num [qabs, monStd, SafetyMonitor.new, cfgStd, sampleBenign, samplePosVel, sampleVel, sampleCur, sampleTmp, sampleTmo]) (by norm_num [qabs, monStd, SafetyMonitor.new, cfgStd, sampleBenign, samplePosVel, sampleVel, sampleCur, sampleTmp, sampleTmo]),
   (c2_check_safety_order monStd sampleBenign).2.2.2.2.2 (by norm_num [qabs, monStd, SafetyMonitor.new, cfgStd, sampleBenign, samplePosVel, sampleVel, sampleCur, sampleTmp, sampleTmo]) (by norm_num [qabs, monStd, SafetyMonitor.new, cfgStd, sampleBenign, samplePosVel, sampleVel, sampleCur, sampleTmp, sampleTmo]) (by norm_num [qabs, monStd, SafetyMonitor.new, cfgStd, sampleBenign, samplePosVel, sampleVel, sampleCur, sampleTmp, sampleTmo])
     (by norm_num [qabs, monStd, SafetyMonitor.new, cfgStd, sampleBenign, samplePosVel, sampleVel, sampleCur, sampleTmp, sampleTmo]) (by norm_num [qabs, monStd, SafetyMonitor.new, cfgStd, sampleBenign, samplePosVel, sampleVel, sampleCur, sampleTmp, sampleTmo])⟩

/-- Counterexample to C3 as stated: a manager whose state is `Complete` (and
which still holds its safety monitor, as every started manager does) does NOT
keep its state on every input sample — a sample violating the position limit
moves it to `Failed(PositionLimit)`. -/
theorem c3_counterexample :
    mTermC.state = .Complete ∧
    (mTermC.update samplePosVel).2.state = .Failed .PositionLimit := by
  refine ⟨rfl, ?_⟩
  norm_num [CalibrationManager.update, mTermC, CalibrationManager.new, monStd,
    SafetyMonitor.new, SafetyMonitor.check_safety, cfgStd, samplePosVel,
    sampleBenign, qabs]

/-- Claim C3, amended: for every manager in `Complete` or `Failed(e)`,
`update(sample)` always returns `(0.0, 0.0, true)`; the state (and the whole
manager) is unchanged whenever the safety gate passes (no monitor, or
`check_safety` accepts the sample); but a sample rejected by the safety
monitor with code `e'` re-fails the manager to `Failed(e')`. -/
theorem c3_terminal_states_amended (m : CalibrationManager) (s : MeasurementSample)
    (hterm : m.state = .Complete ∨ ∃ e, m.state = .Failed e) :
    (m.update s).1 = (0, 0, true) ∧
    (m.safetyPasses s = true → m.update s = ((0, 0, true), m)) ∧
    (∀ sm e', m.safety = some sm → sm.check_safety s = .error e' →
      m.update s = ((0, 0, true), { m with state := .Failed e' })) := by
  have hd : m.updateDispatch s = ((0, 0, true), m) := by
    unfold CalibrationManager.updateDispatch
    rcases hterm with h | ⟨e, h⟩ <;> rw [h]
  refine ⟨?_, ?_, ?_⟩
  · unfold CalibrationManager.update
    cases hs : m.safety with
    | none => rw [hd]
    | some sm =>
        cases hc : sm.check_safety s with
        | ok u => simp only [hc, hd]
        | error e => simp only [hc]
  · intro hp
    rw [update_eq_dispatch m s hp, hd]
  · intro sm e' h1 h2
    obtain ⟨st, cfg, sf, it, ft, res, t0⟩ := m
    cases h1
    unfold CalibrationManager.update
    dsimp only
    rw [h2]

/-- Witness for C3 (amended): a manager resting in `Failed(Timeout)` with no
safety monitor returns the zero command and is left exactly as it was. -/
theorem c3_witness :
    (mTermF.update sampleBenign).1 = (0, 0, true) ∧
    mTermF.update sampleBenign = ((0, 0, true), mTermF) :=
  ⟨(c3_terminal_states_amended mTermF sampleBenign (.inr ⟨.Timeout, rfl⟩)).1,
   (c3_terminal_states_amended mTermF sampleBenign (.inr ⟨.Timeout, rfl⟩)).2.1 rfl⟩

/-- Claim C4: `start` fails with `InvalidState` when not `Idle` and when the
config is out of range (`max_current ∉ (0,15]`, `max_velocity ∉ (0,10]`,
`max_position_range ≤ 0`, `phase_timeout ≤ 0`); on any failure the manager
(hence its state) is unchanged; from `Idle` with a valid config it succeeds,
captures `home_position = current_position`, constructs the `SafetyMonitor`,
records the start time and enters `Initializing`. -/
theorem c4_start_validation (m : CalibrationManager) (c : CalibrationConfig)
    (pos t : ℚ) :
    (m.state ≠ .Idle → m.start c pos t = (.error .InvalidState, m)) ∧
    (m.state = .Idle → ¬ ConfigValid c → m.start c pos t = (.error .InvalidState, m)) ∧
    (m.state = .Idle → ConfigValid c →
      m.start c pos t = (.ok (),
        { m with
            config := { c with home_position := pos }
            safety := some (SafetyMonitor.new { c with home_position := pos } pos t)
            start_time := t
            state := .Initializing })) := by
  refine ⟨?_, ?_, ?_⟩
  · intro h
    unfold CalibrationManager.start
    rw [if_pos h]
  · intro hidle hnv
    unfold CalibrationManager.start
    rw [if_neg (by simp [hidle])]
    have hne : c.validate ≠ .ok () := fun h => hnv ((validate_ok_iff c).mp h)
    cases hv : c.validate with
    | error e => rfl
    | ok u => cases u; exact absurd hv hne
  · intro hidle hv
    unfold CalibrationManager.start
    rw [if_neg (by simp [hidle]), (validate_ok_iff c).mpr hv]

/-- Witness for C4: a fresh manager started with the standard valid config at
position 2, time 3. -/
theorem c4_witness :
    CalibrationManager.new.start cfgStd 2 3 = (.ok (),
      { CalibrationManager.new with
          config := { cfgStd with home_position := 2 }
          safety := some (SafetyMonitor.new { cfgStd with home_position := 2 } 2 3)
          start_time := 3
          state := .Initializing }) :=
  (c4_start_validation CalibrationManager.new cfgStd 2 3).2.2 rfl
    (by norm_num [ConfigValid, cfgStd])

/-- Counterexample to C5 as stated: from `Initializing`, a config enabling only
the torque-constant phase (bit 2, the first enabled phase in the claimed
priority order) does NOT enter `TorqueConstantTest`: the dispatcher only
implements the inertia and friction phases and transitions directly to
`Complete`. -/
theorem c5_counterexample :
    mInitTC.state = .Initializing ∧
    mInitTC.config.phase_enabled PHASE_TORQUE_CONSTANT = true ∧
    (mInitTC.update sampleBenign).2.state = .Complete ∧
    (mInitTC.update sampleBenign).1 = (0, 0, true) := by
  have hsp : mInitTC.safetyPasses sampleBenign = true := by
    norm_num [CalibrationManager.safetyPasses, mInitTC, CalibrationManager.new,
      SafetyMonitor.new, SafetyMonitor.check_safety, cfgTC, cfgStd, sampleBenign, qabs]
  refine ⟨rfl, by decide, ?_, ?_⟩ <;>
    rw [update_eq_dispatch _ _ hsp] <;>
    simp [CalibrationManager.updateDispatch, mInitTC, CalibrationManager.new,
      CalibrationConfig.phase_enabled, cfgTC, cfgStd, PHASE_INERTIA, PHASE_FRICTION,
      show Nat.land 4 1 = 0 from rfl, show Nat.land 4 2 = 0 from rfl]

/-- Claim C5, amended: on the first update while `Initializing` (with the
safety gate passing), the manager enters the first enabled phase in the
implemented priority order inertia → friction, constructs that phase's
estimator (kt seed 0.15; friction also gets `config.max_velocity`) and resets
the safety phase timer, returning `(0,0,false)`; for every config enabling
neither inertia nor friction — in particular `phases = 0` — the same tick
transitions directly to `Complete` and returns `(0.0, 0.0, true)`. -/
theorem c5_initializing_dispatch_amended (m : CalibrationManager)
    (s : MeasurementSample) (hst : m.state = .Initializing)
    (hsp : m.safetyPasses s = true) :
    (m.config.phase_enabled PHASE_INERTIA = true →
      m.update s = ((0, 0, false),
        { m with inertia_test := some (InertiaTest.new (15/100))
                 state := .InertiaTest
                 safety := m.safety.map (·.reset_phase_timer s.timestamp) })) ∧
    (m.config.phase_enabled PHASE_INERTIA = false →
      m.config.phase_enabled PHASE_FRICTION = true →
      m.update s = ((0, 0, false),
        { m with friction_test := some (FrictionTest.new (15/100) m.config.max_velocity)
                 state := .FrictionTest
                 safety := m.safety.map (·.reset_phase_timer s.timestamp) })) ∧
    (m.config.phase_enabled PHASE_INERTIA = false →
      m.config.phase_enabled PHASE_FRICTION = false →
      m.update s = ((0, 0, true), { m with state := .Complete })) := by
  rw [update_eq_dispatch m s hsp]
  unfold CalibrationManager.updateDispatch
  rw [hst]
  refine ⟨?_, ?_, ?_⟩
  · intro h1
    rw [if_pos h1]
  · intro h1 h2
    rw [if_neg (by simp [h1]), if_pos h2]
  · intro h1 h2
    rw [if_neg (by simp [h1]), if_neg (by simp [h2])]

/-- Witness for C5 (amended): from `Initializing` with only the inertia bit
set and no monitor attached, the first tick enters `InertiaTest` with a fresh
estimator seeded at kt = 0.15. -/
theorem c5_witness :
    mInitI.update sampleBenign = ((0, 0, false),
      { mInitI with inertia_test := some (InertiaTest.new (15/100))
                    state := .InertiaTest
                    safety := mInitI.safety.map (·.reset_phase_timer sampleBenign.timestamp) }) :=
  (c5_initializing_dispatch_amended mInitI sampleBenign rfl rfl).1 (by decide)

/-- Counterexample to C6 as stated: `stop()` on a manager already in
`Failed(Timeout)` is NOT a no-op — it overwrites the stored error code with
`UserAbort`. -/
theorem c6_counterexample :
    mTermF.state = .Failed .Timeout ∧
    mTermF.stop.state = .Failed .UserAbort := by
  exact ⟨rfl, by decide⟩

/-- Claim C6, amended: `stop()` is a no-op when the state is `Idle`; in every
other state — including an already-`Failed` one, whose stored code is
overwritten — it transitions the manager immediately to `Failed(UserAbort)`. -/
theorem c6_stop_amended (m : CalibrationManager) :
    (m.state = .Idle → m.stop = m) ∧
    (m.state ≠ .Idle → m.stop = { m with state := .Failed .UserAbort }) := by
  unfold CalibrationManager.stop
  constructor
  · intro h; rw [if_neg (by simp [h])]
  · intro h; rw [if_pos h]

/-- Witness for C6 (amended): `stop` on a fresh `Idle` manager is the
identity; `stop` on a `Failed(Timeout)` manager forces `Failed(UserAbort)`. -/
theorem c6_witness :
    CalibrationManager.new.stop = CalibrationManager.new ∧
    mTermF.stop = { mTermF with state := .Failed .UserAbort } :=
  ⟨(c6_stop_amended CalibrationManager.new).1 rfl,
   (c6_stop_amended mTermF).2 (by decide)⟩

/-- Claim C7: trial `k` of `InertiaTest` commands `k+1` amperes (the five
trials use the currents `[1,2,3,4,5]`); the per-trial estimate equals
`kt_nominal × (k+1)` divided by the mean of the buffered accelerations with
`|α| > 1.0`; it is exactly 0 when no buffered sample passes the filter; for a
buffer entirely at constant acceleration 2 in trial 0 the estimate is
`kt_nominal / 2`; and the estimate is stored into `results[trial]` when the
settle period ends. -/
theorem c7_inertia_trial_estimates (t : InertiaTest) :
    (t.get_command_current = (t.trial : ℚ) + 1) ∧
    (∀ kt : ℚ, (List.range NUM_TRIALS).map
        (fun k => InertiaTest.get_command_current { InertiaTest.new kt with trial := k })
        = [1, 2, 3, 4, 5]) ∧
    ((t.measurements.samplesView.filter (fun s => qabs s.acceleration > 1)) ≠ [] →
      t.estimate_inertia_for_trial =
        t.kt_nominal * ((t.trial : ℚ) + 1) /
          (((t.measurements.samplesView.filter (fun s => qabs s.acceleration > 1)).map
              (fun s => s.acceleration)).sum /
           (((t.measurements.samplesView.filter
              (fun s => qabs s.acceleration > 1)).length : ℚ)))) ∧
    ((t.measurements.samplesView.filter (fun s => qabs s.acceleration > 1)) = [] →
      t.estimate_inertia_for_trial = 0) ∧
    (t.trial = 0 → t.measurements.samplesView ≠ [] →
      (∀ s ∈ t.measurements.samplesView, s.acceleration = 2) →
      t.estimate_inertia_for_trial = t.kt_nominal / 2) ∧
    (∀ s : MeasurementSample, t.phase = .WaitSettle →
      s.timestamp - t.start_time > 1/2 →
      ((t.update s).2).results = t.results.set t.trial t.estimate_inertia_for_trial) := by
  refine ⟨rfl, ?_, ?_, ?_, ?_, ?_⟩
  · intro kt
    norm_num [NUM_TRIALS, List.range_succ, InertiaTest.get_command_current]
  · intro hne
    unfold InertiaTest.estimate_inertia_for_trial
    dsimp only
    rw [if_neg (fun h => hne (List.length_eq_zero.mp h)),
      foldl_add_map (fun s => s.acceleration), zero_add,
      InertiaTest.get_command_current]
  · intro hnil
    unfold InertiaTest.estimate_inertia_for_trial
    dsimp only
    rw [if_pos (by rw [hnil]; rfl)]
  · intro h0 hne hall
    have hfil : t.measurements.samplesView.filter
        (fun s => decide (qabs s.acceleration > 1)) = t.measurements.samplesView := by
      apply List.filter_eq_self.mpr
      intro s hs
      simp only [hall s hs, decide_eq_true_eq]
      norm_num [qabs]
    have hlen : t.measurements.samplesView.length ≠ 0 :=
      fun h => hne (List.length_eq_zero.mp h)
    have hcast : ((t.measurements.samplesView.length : ℚ)) ≠ 0 :=
      Nat.cast_ne_zero.mpr hlen
    have hmap : t.measurements.samplesView.map (fun s => s.acceleration) =
        List.replicate (t.measurements.samplesView.map (fun s => s.acceleration)).length 2 := by
      rw [List.eq_replicate_length]
      intro b hb
      obtain ⟨s, hs, rfl⟩ := List.mem_map.mp hb
      exact hall s hs
    unfold InertiaTest.estimate_inertia_for_trial
    dsimp only
    rw [hfil, if_neg hlen, foldl_add_map (fun s => s.acceleration), zero_add,
      hmap, List.sum_replicate, List.length_map, InertiaTest.get_command_current, h0]
    rw [nsmul_eq_mul, mul_comm ((t.measurements.samplesView.length : ℚ)) 2]
    have h2 : (2 : ℚ) * (t.measurements.samplesView.length : ℚ) /
        (t.measurements.samplesView.length : ℚ) = 2 := by
      rw [mul_div_assoc, div_self hcast, mul_one]
    rw [h2]
    norm_num
  · intro s hphase htime
    unfold InertiaTest.update
    rw [hphase]
    rw [if_pos htime]
    dsimp only
    split <;> rfl

/-- Witness for C7: an inertia test on trial 0 whose two buffered samples
both have acceleration 2 estimates `kt/2`; a fresh test with an empty buffer
estimates 0. -/
theorem c7_witness :
    itTrial0.estimate_inertia_for_trial = itTrial0.kt_nominal / 2 ∧
    (InertiaTest.new (3/20)).estimate_inertia_for_trial = 0 :=
  ⟨(c7_inertia_trial_estimates itTrial0).2.2.2.2.1 rfl
      (by simp [itTrial0, MeasurementBuffer.samplesView])
      (by
        intro s hs
        simp only [itTrial0, MeasurementBuffer.samplesView, List.take,
          List.mem_cons, List.not_mem_nil, or_false] at hs
        rcases hs with h | h <;> subst h <;> rfl),
   (c7_inertia_trial_estimates (InertiaTest.new (3/20))).2.2.2.1
      (by simp [InertiaTest.new, MeasurementBuffer.new, MeasurementBuffer.samplesView])⟩

/-- Claim C8 (bug exhibit): the first velocity point's ramp does NOT last
1 second from entering the point. `FrictionTest::new` initializes
`start_time = 0.0` and never latches it to the entry time, so a freshly
constructed test receiving its first sample at t = 5 s (as happens whenever
friction runs after the ≈7.5 s inertia phase) leaves `Ramping` for `Steady`
on that very first tick — a 0-second first ramp. -/
theorem c8_first_ramp_skipped :
    (FrictionTest.new (3/20) 1).phase = .Ramping ∧
    (FrictionTest.new (3/20) 1).start_time = 0 ∧
    ((FrictionTest.new (3/20) 1).update { sampleBenign with timestamp := 5 }).2.phase
      = .Steady := by
  refine ⟨rfl, rfl, ?_⟩
  norm_num [FrictionTest.update, FrictionTest.new, sampleBenign,
    MeasurementBuffer.clear, MeasurementBuffer.new]

/-- Claim C9: a push on a non-full well-formed buffer succeeds, writes the
next slot, increments the count by one, and extends `samples()` by exactly
the pushed sample; a push on a full buffer fails and leaves the buffer
unchanged; under any sequence of push/clear operations from a fresh buffer
the count never exceeds `N` and `samples()` equals the abstract contents
(the successfully pushed samples since the last clear, in order). -/
theorem c9_buffer_push_invariants (N : ℕ) :
    (∀ (b : MeasurementBuffer N) (s : MeasurementSample), b.WF → b.count < N →
      (b.push s).1 = .ok () ∧
      (b.push s).2.count = b.count + 1 ∧
      (b.push s).2.samples = b.samples.set b.count s ∧
      (b.push s).2.samplesView = b.samplesView ++ [s] ∧
      (b.push s).2.WF) ∧
    (∀ (b : MeasurementBuffer N) (s : MeasurementSample), b.count = N →
      b.push s = (.error (), b)) ∧
    (∀ ops : List BufOp,
      (applyOps (MeasurementBuffer.new N) ops).count ≤ N ∧
      (applyOps (MeasurementBuffer.new N) ops).samplesView = specContents N [] ops) := by
  refine ⟨?_, ?_, ?_⟩
  · intro b s hwf hlt
    obtain ⟨h1, h2, h3, h4⟩ := push_step_ok b s hwf hlt
    refine ⟨h1, h2, ?_, h3, h4⟩
    unfold MeasurementBuffer.push
    rw [if_pos hlt]
  · intro b s hfull
    exact push_step_full b s hfull
  · intro ops
    have hwf0 : (MeasurementBuffer.new N).WF :=
      ⟨by simp [MeasurementBuffer.new], by simp [MeasurementBuffer.new]⟩
    have h := applyOps_invariant ops (MeasurementBuffer.new N) hwf0
    refine ⟨h.1.2, ?_⟩
    have hv : (MeasurementBuffer.new N).samplesView = [] := by
      simp [MeasurementBuffer.new, MeasurementBuffer.samplesView]
    rw [h.2, hv]

/-- Witness for C9: capacity 2 — a push on the fresh buffer succeeds, a push
on a full buffer is rejected unchanged, and a five-operation run (three
pushes, a clear, a push) keeps the count within capacity and matches the
abstract contents. -/
theorem c9_witness :
    ((MeasurementBuffer.new 2).push sampleBenign).1 = .ok () ∧
    bufFull2.push sampleBenign = (.error (), bufFull2) ∧
    (applyOps (MeasurementBuffer.new 2) opsEx).count ≤ 2 ∧
    (applyOps (MeasurementBuffer.new 2) opsEx).samplesView = specContents 2 [] opsEx :=
  ⟨((c9_buffer_push_invariants 2).1 (MeasurementBuffer.new 2) sampleBenign
      ⟨by simp [MeasurementBuffer.new], by simp [MeasurementBuffer.new]⟩
      (by simp [MeasurementBuffer.new])).1,
   (c9_buffer_push_invariants 2).2.1 bufFull2 sampleBenign rfl,
   ((c9_buffer_push_invariants 2).2.2 opsEx).1,
   ((c9_buffer_push_invariants 2).2.2 opsEx).2⟩

/-- Claim C10 (implicit): when the inertia phase completes and friction is
enabled, the manager constructs the `FrictionTest` with `kt_nominal` set to
the just-measured inertia `InertiaResult.J` — not the 0.15 seed used when
friction runs first from `Initializing`; and every per-velocity friction
estimate is `kt_nominal × mean(i_q)`, hence scales with the measured inertia
in that run. -/
theorem c10_friction_kt_from_inertia (m : CalibrationManager) (s : MeasurementSample)
    (t : InertiaTest) :
    (m.state = .InertiaTest → m.inertia_test = some t → m.safetyPasses s = true →
      (t.update s).1.2 = true → m.config.phase_enabled PHASE_FRICTION = true →
      (m.update s).2.friction_test =
        some (FrictionTest.new ((t.update s).2.get_result.J) m.config.max_velocity) ∧
      (m.update s).2.state = .FrictionTest ∧
      (FrictionTest.new ((t.update s).2.get_result.J) m.config.max_velocity).kt_nominal =
        (t.update s).2.get_result.J) ∧
    (m.state = .Initializing → m.safetyPasses s = true →
      m.config.phase_enabled PHASE_INERTIA = false →
      m.config.phase_enabled PHASE_FRICTION = true →
      (m.update s).2.friction_test =
        some (FrictionTest.new (15/100) m.config.max_velocity)) ∧
    (∀ ft : FrictionTest, ft.estimate_friction_at_velocity =
      ft.kt_nominal * ((ft.measurements.samplesView.map (fun x => x.current_iq)).sum /
        (ft.measurements.samplesView.length : ℚ))) := by
  refine ⟨?_, ?_, ?_⟩
  · intro hst hit hsp hcomp hpf
    rw [update_eq_dispatch m s hsp]
    unfold CalibrationManager.updateDispatch
    rw [hst, hit]
    dsimp only
    rw [if_pos hcomp, if_pos hpf]
    exact ⟨rfl, rfl, rfl⟩
  · intro hst hsp hpi hpf
    rw [update_eq_dispatch m s hsp]
    unfold CalibrationManager.updateDispatch
    rw [hst]
    rw [if_neg (by simp [hpi]), if_pos hpf]
  · intro ft
    unfold FrictionTest.estimate_friction_at_velocity
    dsimp only
    rw [foldl_add_map (fun x => x.current_iq), zero_add]

/-- Witness for C10: the manager `mIT` completes its inertia phase on sample
`s06` and constructs the friction estimator with kt equal to the measured J. -/
theorem c10_witness :
    (mIT.update s06).2.friction_test =
      some (FrictionTest.new (((itDone.update s06).2.get_result).J) mIT.config.max_velocity) ∧
    (mIT.update s06).2.state = .FrictionTest := by
  have h := (c10_friction_kt_from_inertia mIT s06 itDone).1 rfl rfl rfl
    (by norm_num [InertiaTest.update, itDone, InertiaTest.new, s06, sampleBenign,
      NUM_TRIALS])
    (by decide)
  exact ⟨h.1, h.2.1⟩

end Calib
